import Mathlib

/-!
Shallow embedding of libevent's `listener.c` (connection-listener abstraction).

Each C function is translated to a Lean function over an explicit environment
describing the outcomes of the external calls it makes (socket creation,
`listen`, `bind`, allocation, completion-port operations).  Besides its
result, every translated function returns the list of observable side effects
it performed, in program order, as values of the `Ev` type: calls to
`listen`, sockets created and closed, descriptors made non-blocking, reactor
registrations added and removed, user-callback invocations, log warnings and
memory frees.  Theorems about construction, the accept-drain loop, teardown
and the completion backend are stated over these traces.
-/

namespace LibeventListener

/-- Flag constants of the public listener interface (event2/listener.h):
bit 0 = LEV_OPT_LEAVE_SOCKETS_BLOCKING, bit 1 = LEV_OPT_CLOSE_ON_FREE,
bit 2 = LEV_OPT_CLOSE_ON_EXEC, bit 3 = LEV_OPT_REUSEABLE. -/
def LEV_OPT_LEAVE_SOCKETS_BLOCKING : Nat := 1

def LEV_OPT_CLOSE_ON_FREE : Nat := 2

def LEV_OPT_CLOSE_ON_EXEC : Nat := 4

def LEV_OPT_REUSEABLE : Nat := 8

/-- Address-family constant AF_INET. -/
def AF_INET : Nat := 2

/-- Address-family constant AF_INET6. -/
def AF_INET6 : Nat := 10

/-- Sentinel descriptor value INVALID_SOCKET, modelled as -1. -/
def INVALID_SOCKET : Int := -1

/-- Observable side effects performed by the listener code, recorded in
program order. -/
inductive Ev where
  | listen (fd : Int) (backlog : Int)
  | socketNew (fd : Int)
  | closeFd (fd : Int)
  | setNonblock (fd : Int)
  | setCloexec (fd : Int)
  | setKeepalive (fd : Int)
  | setReuseable (fd : Int)
  | bindAddr (fd : Int)
  | eventAdd (fd : Int)
  | eventDel (fd : Int)
  | callback (fd : Int) (addr : Nat)
  | logWarn
  | freeMem
  deriving DecidableEq, Repr

/-- The readiness-backend listener handle (struct evconnlistener /
evconnlistener_event): option flags, the listening descriptor held by the
wrapped event, and whether that event is currently added to the reactor. -/
structure Evconnlistener where
  flags : Nat
  fd : Int
  registered : Bool
  deriving DecidableEq, Repr

/-- A socket address, reduced to the fields the listener consults: the
address family and an abstract payload. -/
structure Sockaddr where
  family : Nat
  data : Nat
  deriving DecidableEq, Repr

/-- Outcomes of the external calls made by the readiness-backend
constructors.  `listenOk b` is the result of `listen(fd, b)`, keyed by the
backlog argument actually passed; `socketFd` is the descriptor returned by
`socket()` in the bind helper (none = failure); the remaining fields are the
results of `evutil_make_socket_nonblocking`, `fcntl(F_SETFD, FD_CLOEXEC)` and
`bind`. -/
structure Env where
  listenOk : Int → Bool
  callocOk : Bool
  socketFd : Option Int
  nonblockOk : Bool
  fcntlOk : Bool
  bindOk : Bool

/-- The tail of `evconnlistener_new` after the listen step
(listener.c:116-126): allocate the handle, install the ops/callback fields,
assign the persistent read event and enable it.  The reactor's `event_add`
on a freshly assigned event is modelled as always succeeding; its effect is
the `Ev.eventAdd` record and `registered := true`. -/
def evconnlistener_new_finish (env : Env) (flags : Nat) (fd : Int) :
    Option Evconnlistener × List Ev :=
  if env.callocOk then
    (some ⟨flags, fd, true⟩, [Ev.eventAdd fd])
  else
    (none, [])

/-- Model of `evconnlistener_new` (listener.c:103-127): for positive backlog
call `listen(fd, backlog)`, for negative backlog call `listen(fd, 128)`, for
zero backlog skip the listen call; on listen failure return NULL, otherwise
allocate and enable the handle. -/
def evconnlistener_new (env : Env) (flags : Nat) (backlog : Int) (fd : Int) :
    Option Evconnlistener × List Ev :=
  if backlog > 0 then
    if env.listenOk backlog then
      let r := evconnlistener_new_finish env flags fd
      (r.1, Ev.listen fd backlog :: r.2)
    else
      (none, [Ev.listen fd backlog])
  else if backlog < 0 then
    if env.listenOk 128 then
      let r := evconnlistener_new_finish env flags fd
      (r.1, Ev.listen fd 128 :: r.2)
    else
      (none, [Ev.listen fd 128])
  else
    evconnlistener_new_finish env flags fd

/-- Model of `evconnlistener_new_bind` (listener.c:129-168): reject a zero
backlog, create a stream socket, make it non-blocking (on failure the source
returns NULL without closing the socket), apply close-on-exec when requested
(closing the socket on failure), set keep-alive, apply address reuse when
requested, bind when an address is given (closing the socket on failure),
then delegate to `evconnlistener_new`. -/
def evconnlistener_new_bind (env : Env) (flags : Nat) (backlog : Int)
    (sa : Option Sockaddr) : Option Evconnlistener × List Ev :=
  if backlog = 0 then (none, [])
  else
    match env.socketFd with
    | none => (none, [])
    | some fd =>
      let t1 := [Ev.socketNew fd]
      if env.nonblockOk = false then
        (none, t1)
      else
        let t2 := t1 ++ [Ev.setNonblock fd]
        if (flags &&& LEV_OPT_CLOSE_ON_EXEC != 0) && (env.fcntlOk = false) then
          (none, t2 ++ [Ev.closeFd fd])
        else
          let t3 := t2 ++
            (if flags &&& LEV_OPT_CLOSE_ON_EXEC != 0 then [Ev.setCloexec fd] else [])
          let t4 := t3 ++ [Ev.setKeepalive fd]
          let t5 := t4 ++
            (if flags &&& LEV_OPT_REUSEABLE != 0 then [Ev.setReuseable fd] else [])
          if sa.isSome && (env.bindOk = false) then
            (none, t5 ++ [Ev.closeFd fd])
          else
            let t6 := t5 ++ (if sa.isSome then [Ev.bindAddr fd] else [])
            let r := evconnlistener_new env flags backlog fd
            (r.1, t6 ++ r.2)

/-- Recognizer for listen events, used to project the listen calls out of a
trace. -/
def Ev.isListen : Ev → Bool
  | Ev.listen _ _ => true
  | _ => false

/-- An environment in which every external call succeeds; `socket()` returns
descriptor 7. -/
def envAllOk : Env := ⟨fun _ => true, true, some 7, true, true, true⟩

/-- An environment in which `evutil_make_socket_nonblocking` fails and every
other external call succeeds; `socket()` returns descriptor 7. -/
def envNonblockFails : Env := ⟨fun _ => true, true, some 7, false, true, true⟩

/-- Model of `event_listener_destroy` (listener.c:177-186): remove the read
event from the reactor, then close the listening descriptor exactly when
LEV_OPT_CLOSE_ON_FREE is set. -/
def event_listener_destroy (lev : Evconnlistener) : List Ev :=
  Ev.eventDel lev.fd ::
    (if lev.flags &&& LEV_OPT_CLOSE_ON_FREE != 0 then [Ev.closeFd lev.fd] else [])

/-- Model of `evconnlistener_free` (listener.c:170-175): dispatch the
backend's destroy operation, then free the handle memory. -/
def evconnlistener_free (lev : Evconnlistener) : List Ev :=
  event_listener_destroy lev ++ [Ev.freeMem]

/-- Ambient kernel/reactor state acted on by a trace: the set of open
descriptors and the set of descriptors with a reactor registration, both as
lists. -/
structure SysState where
  openFds : List Int
  registered : List Int
  deriving DecidableEq, Repr

/-- Effect of a single trace event on the ambient state: socket creation
opens a descriptor, close removes it, reactor add/del update the
registration list; all other events leave the state unchanged. -/
def applyEv (st : SysState) (e : Ev) : SysState :=
  match e with
  | Ev.socketNew fd => ⟨fd :: st.openFds, st.registered⟩
  | Ev.closeFd fd => ⟨st.openFds.filter (· != fd), st.registered⟩
  | Ev.eventAdd fd => ⟨st.openFds, fd :: st.registered⟩
  | Ev.eventDel fd => ⟨st.openFds, st.registered.filter (· != fd)⟩
  | _ => st

/-- Effect of a whole trace on the ambient state, applied in program
order. -/
def applyTrace (st : SysState) (tr : List Ev) : SysState :=
  tr.foldl applyEv st

/-- One result of an `accept()` attempt: a new connection (descriptor plus
peer address) or a failure carrying the error code that
`evutil_socket_geterror` reports afterwards. -/
inductive AcceptRes where
  | ok (fd : Int) (addr : Nat)
  | fail (errno : Nat)
  deriving DecidableEq, Repr

/-- True on a successful accept result. -/
def AcceptRes.isOk : AcceptRes → Bool
  | AcceptRes.ok _ _ => true
  | AcceptRes.fail _ => false

/-- The callback event a successful accept result gives rise to. -/
def AcceptRes.toCb : AcceptRes → Option Ev
  | AcceptRes.ok fd addr => some (Ev.callback fd addr)
  | AcceptRes.fail _ => none

/-- Recognizer for user-callback events. -/
def Ev.isCallback : Ev → Bool
  | Ev.callback _ _ => true
  | _ => false

/-- Recognizer for make-nonblocking events. -/
def Ev.isSetNonblock : Ev → Bool
  | Ev.setNonblock _ => true
  | _ => false

/-- The accept loop of `listener_read_cb` (listener.c:244-262).  `accepts`
is the stream of results that successive `accept()` calls return; the kernel
eventually reports failure on a non-blocking listening socket, so the
interesting streams contain a `fail`.  For each accepted connection the new
descriptor is made non-blocking unless LEV_OPT_LEAVE_SOCKETS_BLOCKING is
set, then the user callback is invoked; the loop breaks on the first failed
accept, whose error code is then read back with `evutil_socket_geterror` and
classified by `retriable` (the EVUTIL_ERR_ACCEPT_RETRIABLE macro, external
to this file): retriable errors end the loop silently, any other error is
logged.  An exhausted stream with no failure is a fuel artifact of the model
and produces no terminal event. -/
def drainLoop (retriable : Nat → Bool) (flags : Nat) : List AcceptRes → List Ev
  | [] => []
  | AcceptRes.ok fd addr :: rest =>
      (if flags &&& LEV_OPT_LEAVE_SOCKETS_BLOCKING != 0 then [] else [Ev.setNonblock fd]) ++
        Ev.callback fd addr :: drainLoop retriable flags rest
  | AcceptRes.fail e :: _ =>
      if retriable e then [] else [Ev.logWarn]

/-- Model of `listener_read_cb` (listener.c:239-262): run the accept-drain
loop with the handle's flags.  The handle itself is returned unchanged:
the source never touches the handle or its registration here. -/
def listener_read_cb (retriable : Nat → Bool) (lev : Evconnlistener)
    (accepts : List AcceptRes) : Evconnlistener × List Ev :=
  (lev, drainLoop retriable lev.flags accepts)

/-- The error code of the first failed accept in a stream, if any. -/
def firstFail : List AcceptRes → Option Nat
  | [] => none
  | AcceptRes.ok _ _ :: rest => firstFail rest
  | AcceptRes.fail e :: _ => some e

/-- The terminal log events the drain loop emits for a stream: nothing when
no accept fails or the first failure is retriable, one warning otherwise. -/
def logTail (retriable : Nat → Bool) (accepts : List AcceptRes) : List Ev :=
  match firstFail accepts with
  | none => []
  | some e => if retriable e then [] else [Ev.logWarn]

/-- One AcceptEx slot of the completion backend (struct accepting_socket):
the slot's socket, the owning listener's descriptor and flags (reached in
the source through `as->lev`), the scratch-buffer length, and the local and
remote address records the buffer holds once an accept completed. -/
structure AcceptingSocket where
  s : Int
  levFd : Int
  levFlags : Nat
  buflen : Nat
  addrLocal : Nat
  addrRemote : Nat
  deriving DecidableEq, Repr

/-- The completion-backend listener handle (struct evconnlistener_iocp) with
its single accepting slot. -/
structure EvconnlistenerIocp where
  flags : Nat
  fd : Int
  accepting : AcceptingSocket
  deriving DecidableEq, Repr

/-- Outcome of one AcceptEx call: immediate completion, pending overlapped
operation, or an error other than ERROR_IO_PENDING. -/
inductive AXOut where
  | immediate
  | pendingOp
  | failErr
  deriving DecidableEq, Repr

/-- Outcomes of the external calls made by the completion backend:
`listenOk` as in `Env`; the result and reported address family of
`getsockname`; the three allocations of the async constructor (the handle,
the slot array, the slot itself); the descriptor `socket()` returns inside
`start_accepting` (none = failure); and the result of associating that
socket with the completion port. -/
structure EnvIocp where
  listenOk : Int → Bool
  getsocknameOk : Bool
  sockFamily : Nat
  callocLevOk : Bool
  callocArrOk : Bool
  callocSlotOk : Bool
  asSocketFd : Option Int
  portAssocOk : Bool

/-- Model of `new_accepting_socket` (listener.c:276-300): compute the
address-record length for the listener's family — rejecting any family other
than AF_INET (record length 16) and AF_INET6 (record length 28) — then
allocate the slot with buffer length `(addrlen+16)*2`, the slot socket
initialized to INVALID_SOCKET and the back-references to the listener. -/
def new_accepting_socket (callocOk : Bool) (levFd : Int) (levFlags : Nat)
    (family : Nat) : Option AcceptingSocket :=
  let addrlen : Option Nat :=
    if family = AF_INET then some 16
    else if family = AF_INET6 then some 28
    else none
  match addrlen with
  | none => none
  | some n =>
    if callocOk then
      some ⟨INVALID_SOCKET, levFd, levFlags, (n + 16) * 2, 0, 0⟩
    else
      none

/-- Model of `start_accepting` (listener.c:302-340).  Returns the C return
code (0 success, -1 failure) together with the updated slot and the trace.
Create a socket (failure returns -1), set SO_UPDATE_ACCEPT_CONTEXT, make the
socket non-blocking unless LEV_OPT_LEAVE_SOCKETS_BLOCKING is set, associate
it with the completion port (failure returns -1), store it in the slot, then
call AcceptEx: `outs` is the stream of AcceptEx outcomes, one per call.
Immediate completion invokes `accepted_socket_cb` (listener.c:331) and
returns 0; the body of that callback — overwrite the slot socket with
INVALID_SOCKET, invoke the user callback with the overwritten socket field
and the remote address, re-post — is inlined at that site so the recursion
is structural on the outcome stream; `accepted_socket_cb` below is the same
code as the inlined block.  A pending operation returns 0; any other
AcceptEx error returns -1.  An exhausted stream is a fuel artifact treated
as failure and never reached in the theorems below. -/
def start_accepting (env : EnvIocp) : List AXOut → AcceptingSocket →
    Int × AcceptingSocket × List Ev
  | outs, as =>
    match env.asSocketFd with
    | none => (-1, as, [])
    | some s =>
      let t1 := Ev.socketNew s ::
        (if as.levFlags &&& LEV_OPT_LEAVE_SOCKETS_BLOCKING != 0 then []
         else [Ev.setNonblock s])
      if env.portAssocOk = false then
        (-1, as, t1)
      else
        match outs with
        | [] =>
            (-1, ⟨s, as.levFd, as.levFlags, as.buflen, as.addrLocal,
              as.addrRemote⟩, t1)
        | AXOut.immediate :: rest =>
            let as1 : AcceptingSocket := ⟨INVALID_SOCKET, as.levFd,
              as.levFlags, as.buflen, as.addrLocal, as.addrRemote⟩
            let r := start_accepting env rest as1
            (0, r.2.1, t1 ++ Ev.callback as1.s as.addrRemote :: r.2.2)
        | AXOut.pendingOp :: _ =>
            (0, ⟨s, as.levFd, as.levFlags, as.buflen, as.addrLocal,
              as.addrRemote⟩, t1)
        | AXOut.failErr :: _ =>
            (-1, ⟨s, as.levFd, as.levFlags, as.buflen, as.addrLocal,
              as.addrRemote⟩, t1)

/-- Model of `accepted_socket_cb` (listener.c:342-368).  Extract the local
and remote address records from the slot's buffer with
GetAcceptExSockaddrs, assign INVALID_SOCKET to the slot's socket field, then
invoke the user callback passing the slot's socket field — read after that
assignment, exactly as the source does — and the remote address, and finally
re-post by calling `start_accepting` on the slot. -/
def accepted_socket_cb (env : EnvIocp) (outs : List AXOut)
    (as : AcceptingSocket) : AcceptingSocket × List Ev :=
  let saRemote := as.addrRemote
  let as1 : AcceptingSocket := ⟨INVALID_SOCKET, as.levFd, as.levFlags,
    as.buflen, as.addrLocal, as.addrRemote⟩
  let r := start_accepting env outs as1
  (r.2.1, Ev.callback as1.s saRemote :: r.2.2)

/-- Model of `evconnlistener_new_async` (listener.c:408-464): run the same
listen step as `evconnlistener_new`, query the socket's address family with
`getsockname` (warn and fail on error), allocate the handle (warn and fail),
allocate the one-entry slot array (warn, free the handle, close the socket),
create the accepting slot for the reported family (warn, free the array and
the handle, close the socket), then call `start_accepting` on the slot.
The source tests `!start_accepting(...)`: since `start_accepting` returns 0
on success, the constructor warns and returns NULL when the first accept was
posted successfully, and returns the handle when posting failed. -/
def evconnlistener_new_async (env : EnvIocp) (flags : Nat) (backlog : Int)
    (fd : Int) (outs : List AXOut) : Option EvconnlistenerIocp × List Ev :=
  let lres : Bool × List Ev :=
    if backlog > 0 then (env.listenOk backlog, [Ev.listen fd backlog])
    else if backlog < 0 then (env.listenOk 128, [Ev.listen fd 128])
    else (true, [])
  if lres.1 = false then (none, lres.2)
  else if env.getsocknameOk = false then (none, lres.2 ++ [Ev.logWarn])
  else if env.callocLevOk = false then (none, lres.2 ++ [Ev.logWarn])
  else if env.callocArrOk = false then
    (none, lres.2 ++ [Ev.logWarn, Ev.freeMem, Ev.closeFd fd])
  else
    match new_accepting_socket env.callocSlotOk fd flags env.sockFamily with
    | none =>
        (none, lres.2 ++ [Ev.logWarn, Ev.freeMem, Ev.freeMem, Ev.closeFd fd])
    | some slot =>
        let r := start_accepting env outs slot
        if r.1 = 0 then
          (none, lres.2 ++ r.2.2 ++ [Ev.logWarn])
        else
          (some ⟨flags, fd, r.2.1⟩, lres.2 ++ r.2.2)

/-- A completion-backend environment in which every external call succeeds;
`getsockname` reports family AF_INET and the accept socket is descriptor
9. -/
def envIocpAllOk : EnvIocp := ⟨fun _ => true, true, AF_INET, true, true, true, some 9, true⟩

/-- A completion-backend environment identical to `envIocpAllOk` except that
`getsockname` reports address family 5, which is neither AF_INET nor
AF_INET6. -/
def envIocpFamily5 : EnvIocp := ⟨fun _ => true, true, 5, true, true, true, some 9, true⟩

/-- A completion-backend environment in which the `socket()` call inside
`start_accepting` fails, so re-posting an accept stops immediately. -/
def envIocpNoRepost : EnvIocp := ⟨fun _ => true, true, AF_INET, true, true, true, none, true⟩

/-- A slot as it stands when an asynchronous accept has just completed: the
accepted connection is socket 5 and the address buffer holds local record 7
and remote record 99. -/
def slotCompleted : AcceptingSocket := ⟨5, 4, 0, 64, 7, 99⟩

/-- The post-listen tail of the raw constructor performs no listen call. -/
theorem filter_isListen_finish (env : Env) (flags : Nat) (fd : Int) :
    (evconnlistener_new_finish env flags fd).2.filter Ev.isListen = [] := by
  unfold evconnlistener_new_finish
  cases h : env.callocOk <;> simp [h, Ev.isListen]

/-- Claim C5: the raw constructor calls listen with exactly the given
backlog when it is positive, with the default 128 when it is negative, and
not at all when it is zero; the bind helper fails with no side effect at all
when the backlog is zero. -/
theorem backlog_translation (env : Env) (flags : Nat) (backlog : Int)
    (fd : Int) (sa : Option Sockaddr) :
    ((evconnlistener_new env flags backlog fd).2.filter Ev.isListen =
      if backlog > 0 then [Ev.listen fd backlog]
      else if backlog < 0 then [Ev.listen fd 128]
      else []) ∧
    evconnlistener_new_bind env flags 0 sa = (none, []) := by
  refine ⟨?_, by simp [evconnlistener_new_bind]⟩
  unfold evconnlistener_new
  by_cases h1 : backlog > 0 <;> by_cases h3 : backlog < 0 <;>
    by_cases h2 : env.listenOk backlog <;> by_cases h4 : env.listenOk 128 <;>
    simp [h1, h2, h3, h4, Ev.isListen, filter_isListen_finish]

/-- If the post-listen tail of the raw constructor produces a handle, the
handle is registered and the trace records the reactor registration. -/
theorem finish_enabled (env : Env) (flags : Nat) (fd : Int)
    (lev : Evconnlistener)
    (h : (evconnlistener_new_finish env flags fd).1 = some lev) :
    lev.registered = true ∧
      Ev.eventAdd fd ∈ (evconnlistener_new_finish env flags fd).2 := by
  unfold evconnlistener_new_finish at h ⊢
  cases h5 : env.callocOk <;> simp [h5] at h ⊢
  cases h
  simp

/-- Claim C9: whenever the raw constructor returns a handle, that handle is
enabled — its persistent read event was added to the reactor before the
constructor returned. -/
theorem new_starts_enabled (env : Env) (flags : Nat) (backlog : Int)
    (fd : Int) (lev : Evconnlistener)
    (h : (evconnlistener_new env flags backlog fd).1 = some lev) :
    lev.registered = true ∧
      Ev.eventAdd fd ∈ (evconnlistener_new env flags backlog fd).2 := by
  unfold evconnlistener_new at h ⊢
  by_cases h1 : backlog > 0 <;> by_cases h3 : backlog < 0 <;>
    by_cases h2 : env.listenOk backlog <;> by_cases h4 : env.listenOk 128 <;>
    simp [h1, h2, h3, h4] at h ⊢ <;>
    rcases finish_enabled env flags fd lev h with ⟨hr, hm⟩ <;>
    exact ⟨hr, by simp [hm]⟩

/-- Claim C9, witnessed: in the all-success environment the constructor
returns the enabled handle on descriptor 3 and the trace records its
registration. -/
theorem new_starts_enabled_witness :
    (⟨0, 3, true⟩ : Evconnlistener).registered = true ∧
      Ev.eventAdd 3 ∈ (evconnlistener_new envAllOk 0 5 3).2 :=
  new_starts_enabled envAllOk 0 5 3 ⟨0, 3, true⟩ (by decide)

/-- Claim C3 (refuting evidence): when `evutil_make_socket_nonblocking`
fails right after `socket()` returned descriptor 7, the bind helper returns
NULL without ever closing descriptor 7, leaking it — unlike the
close-on-exec and bind failure paths, which do close the socket before
failing. -/
theorem bind_nonblocking_failure_leaks_socket :
    (evconnlistener_new_bind envNonblockFails 0 16 (some ⟨AF_INET, 0⟩)).1 =
      none ∧
    Ev.socketNew 7 ∈
      (evconnlistener_new_bind envNonblockFails 0 16 (some ⟨AF_INET, 0⟩)).2 ∧
    Ev.closeFd 7 ∉
      (evconnlistener_new_bind envNonblockFails 0 16 (some ⟨AF_INET, 0⟩)).2 := by
  decide

/-- Claim C8: destroying a readiness-backend handle removes the reactor
registration first, closes the listening descriptor exactly when
LEV_OPT_CLOSE_ON_FREE is set, and frees the handle memory last; applied to
any ambient state, the descriptor ends up deregistered, and it stays in the
open set exactly when the flag is unset. -/
theorem free_close_on_free_semantics (lev : Evconnlistener) (st : SysState) :
    (evconnlistener_free lev).head? = some (Ev.eventDel lev.fd) ∧
    (evconnlistener_free lev).getLast? = some Ev.freeMem ∧
    (Ev.closeFd lev.fd ∈ evconnlistener_free lev ↔
      lev.flags &&& LEV_OPT_CLOSE_ON_FREE ≠ 0) ∧
    lev.fd ∉ (applyTrace st (evconnlistener_free lev)).registered ∧
    ((applyTrace st (evconnlistener_free lev)).openFds =
      if lev.flags &&& LEV_OPT_CLOSE_ON_FREE ≠ 0 then
        st.openFds.filter (· != lev.fd)
      else st.openFds) := by
  by_cases h : lev.flags &&& LEV_OPT_CLOSE_ON_FREE = 0 <;>
    simp [evconnlistener_free, event_listener_destroy, applyTrace, applyEv,
      h, List.mem_filter]

/-- The callbacks the drain loop invokes are exactly one per connection
accepted before the first failing accept attempt, in stream order. -/
theorem drainLoop_filter_callback (retriable : Nat → Bool) (flags : Nat)
    (accepts : List AcceptRes) :
    (drainLoop retriable flags accepts).filter Ev.isCallback =
      (accepts.takeWhile AcceptRes.isOk).filterMap AcceptRes.toCb := by
  induction accepts with
  | nil => rfl
  | cons a rest ih =>
      cases a with
      | ok fd addr =>
          cases hb : flags &&& LEV_OPT_LEAVE_SOCKETS_BLOCKING != 0 <;>
            simp [drainLoop, hb, Ev.isCallback, AcceptRes.isOk,
              AcceptRes.toCb, ih]
      | fail e =>
          cases hr : retriable e <;>
            simp [drainLoop, hr, Ev.isCallback, AcceptRes.isOk]

/-- Claim C4: within one readiness notification the drain loop invokes the
user callback exactly once per connection the kernel delivers before the
first failing accept attempt, in accept order, and invokes none after that
failure. -/
theorem drain_delivers_every_connection (retriable : Nat → Bool)
    (lev : Evconnlistener) (accepts : List AcceptRes) :
    (listener_read_cb retriable lev accepts).2.filter Ev.isCallback =
      (accepts.takeWhile AcceptRes.isOk).filterMap AcceptRes.toCb :=
  drainLoop_filter_callback retriable lev.flags accepts

/-- The drain loop logs exactly when some accept attempt failed with a
non-retriable error code. -/
theorem drainLoop_logWarn (retriable : Nat → Bool) (flags : Nat)
    (accepts : List AcceptRes) :
    (Ev.logWarn ∈ drainLoop retriable flags accepts ↔
      ∃ e, firstFail accepts = some e ∧ retriable e = false) := by
  induction accepts with
  | nil => simp [drainLoop, firstFail]
  | cons a rest ih =>
      cases a with
      | ok fd addr =>
          cases hb : flags &&& LEV_OPT_LEAVE_SOCKETS_BLOCKING != 0 <;>
            simp [drainLoop, hb, firstFail, ih]
      | fail e =>
          cases hr : retriable e <;> simp [drainLoop, hr, firstFail]

/-- The drain loop never removes a reactor registration. -/
theorem drainLoop_no_eventDel (retriable : Nat → Bool) (flags : Nat)
    (accepts : List AcceptRes) (f : Int) :
    Ev.eventDel f ∉ drainLoop retriable flags accepts := by
  induction accepts with
  | nil => simp [drainLoop]
  | cons a rest ih =>
      cases a with
      | ok fd addr =>
          cases hb : flags &&& LEV_OPT_LEAVE_SOCKETS_BLOCKING != 0 <;>
            simp [drainLoop, hb, ih]
      | fail e =>
          cases hr : retriable e <;> simp [drainLoop, hr]

/-- Claim C6: the drain loop classifies the error of the failing accept
attempt — a retriable first failure ends the loop with no log event, a
non-retriable one produces exactly the log warning — and in either case the
handle is returned untouched and no reactor deregistration appears in the
trace, so the listener stays enabled for the next notification. -/
theorem drain_error_classification (retriable : Nat → Bool)
    (lev : Evconnlistener) (accepts : List AcceptRes) :
    (listener_read_cb retriable lev accepts).1 = lev ∧
    (∀ f, Ev.eventDel f ∉ (listener_read_cb retriable lev accepts).2) ∧
    (Ev.logWarn ∈ (listener_read_cb retriable lev accepts).2 ↔
      ∃ e, firstFail accepts = some e ∧ retriable e = false) :=
  ⟨rfl, fun f => drainLoop_no_eventDel retriable lev.flags accepts f,
    drainLoop_logWarn retriable lev.flags accepts⟩

/-- Full trace shape of the drain loop: per accepted connection, an optional
make-nonblocking event followed by the callback, then the terminal log
events. -/
theorem drainLoop_trace_shape (retriable : Nat → Bool) (flags : Nat)
    (accepts : List AcceptRes) :
    drainLoop retriable flags accepts =
      ((accepts.takeWhile AcceptRes.isOk).flatMap fun a =>
        match a with
        | AcceptRes.ok fd addr =>
            (if flags &&& LEV_OPT_LEAVE_SOCKETS_BLOCKING != 0 then []
             else [Ev.setNonblock fd]) ++ [Ev.callback fd addr]
        | AcceptRes.fail _ => []) ++ logTail retriable accepts := by
  induction accepts with
  | nil => simp [drainLoop, logTail, firstFail]
  | cons a rest ih =>
      cases a with
      | ok fd addr =>
          cases hb : flags &&& LEV_OPT_LEAVE_SOCKETS_BLOCKING != 0 <;>
            simp [drainLoop, hb, AcceptRes.isOk, logTail, firstFail, ih]
      | fail e =>
          cases hr : retriable e <;>
            simp [drainLoop, hr, AcceptRes.isOk, logTail, firstFail]

/-- The make-nonblocking events of the drain loop: none at all when
LEV_OPT_LEAVE_SOCKETS_BLOCKING is set, one per delivered connection
otherwise. -/
theorem drainLoop_filter_setNonblock (retriable : Nat → Bool) (flags : Nat)
    (accepts : List AcceptRes) :
    (drainLoop retriable flags accepts).filter Ev.isSetNonblock =
      (if flags &&& LEV_OPT_LEAVE_SOCKETS_BLOCKING != 0 then []
       else (accepts.takeWhile AcceptRes.isOk).filterMap fun a =>
         match a with
         | AcceptRes.ok fd _ => some (Ev.setNonblock fd)
         | AcceptRes.fail _ => none) := by
  induction accepts with
  | nil => cases hb : flags &&& LEV_OPT_LEAVE_SOCKETS_BLOCKING != 0 <;>
      simp [drainLoop, hb]
  | cons a rest ih =>
      cases a with
      | ok fd addr =>
          cases hb : flags &&& LEV_OPT_LEAVE_SOCKETS_BLOCKING != 0 <;>
            simp [drainLoop, hb, Ev.isSetNonblock, AcceptRes.isOk] <;>
            simpa [hb] using ih
      | fail e =>
          cases hb : flags &&& LEV_OPT_LEAVE_SOCKETS_BLOCKING != 0 <;>
            cases hr : retriable e <;>
            simp [drainLoop, hb, hr, Ev.isSetNonblock, AcceptRes.isOk]

/-- Claim C7: when LEV_OPT_LEAVE_SOCKETS_BLOCKING is unset, every accepted
descriptor is made non-blocking immediately before its callback invocation
(the trace interleaves one make-nonblocking event before each callback);
when the flag is set, the trace contains no make-nonblocking event at all
and the descriptors are delivered untouched. -/
theorem drain_nonblocking_flag (retriable : Nat → Bool)
    (lev : Evconnlistener) (accepts : List AcceptRes) :
    ((listener_read_cb retriable lev accepts).2 =
      ((accepts.takeWhile AcceptRes.isOk).flatMap fun a =>
        match a with
        | AcceptRes.ok fd addr =>
            (if lev.flags &&& LEV_OPT_LEAVE_SOCKETS_BLOCKING != 0 then []
             else [Ev.setNonblock fd]) ++ [Ev.callback fd addr]
        | AcceptRes.fail _ => []) ++ logTail retriable accepts) ∧
    ((listener_read_cb retriable lev accepts).2.filter Ev.isSetNonblock =
      (if lev.flags &&& LEV_OPT_LEAVE_SOCKETS_BLOCKING != 0 then []
       else (accepts.takeWhile AcceptRes.isOk).filterMap fun a =>
         match a with
         | AcceptRes.ok fd _ => some (Ev.setNonblock fd)
         | AcceptRes.fail _ => none)) :=
  ⟨drainLoop_trace_shape retriable lev.flags accepts,
    drainLoop_filter_setNonblock retriable lev.flags accepts⟩

/-- Claim C1 (refuting evidence): when an asynchronous accept completes on
a slot whose accepted connection is socket 5 and whose address buffer holds
remote record 99, the completion handler invokes the user callback with
INVALID_SOCKET (-1) and address 99 — the handler overwrites the slot's
socket field with the sentinel before the callback argument is read — so
the callback never sees the accepted socket 5. -/
theorem accepted_cb_passes_invalid_socket :
    slotCompleted.s = 5 ∧
    (accepted_socket_cb envIocpNoRepost [] slotCompleted).2 =
      [Ev.callback INVALID_SOCKET 99] ∧
    INVALID_SOCKET ≠ slotCompleted.s := by
  decide

/-- Claim C2 (refuting evidence): with every construction step succeeding
and AcceptEx leaving the first accept pending, the async constructor
returns NULL — failure after full success — and with AcceptEx failing
outright it returns a handle, a half-initialized backend whose slot has no
posted accept.  The source tests `!start_accepting(...)` although
`start_accepting` returns 0 on success. -/
theorem async_constructor_inverted :
    (evconnlistener_new_async envIocpAllOk 0 16 4 [AXOut.pendingOp]).1 =
      none ∧
    (evconnlistener_new_async envIocpAllOk 0 16 4 [AXOut.failErr]).1.isSome =
      true := by
  decide

/-- Claim C10: for a listening socket whose reported address family is
neither AF_INET nor AF_INET6, slot creation returns failure, so the async
constructor returns failure whatever the other call outcomes are. -/
theorem async_rejects_unknown_family (env : EnvIocp) (flags : Nat)
    (backlog : Int) (fd : Int) (outs : List AXOut)
    (h1 : env.sockFamily ≠ AF_INET) (h2 : env.sockFamily ≠ AF_INET6) :
    (evconnlistener_new_async env flags backlog fd outs).1 = none := by
  have hslot :
      new_accepting_socket env.callocSlotOk fd flags env.sockFamily = none := by
    unfold new_accepting_socket
    simp [h1, h2]
  unfold evconnlistener_new_async
  rw [hslot]
  dsimp only []
  repeat' first
    | rfl
    | contradiction
    | split

/-- Claim C10, witnessed: with the otherwise all-success environment whose
socket reports address family 5, the async constructor fails. -/
theorem async_rejects_unknown_family_witness :
    (evconnlistener_new_async envIocpFamily5 0 16 4 [AXOut.pendingOp]).1 =
      none :=
  async_rejects_unknown_family envIocpFamily5 0 16 4 [AXOut.pendingOp]
    (by decide) (by decide)

end LibeventListener
